import Mathlib

/-!
Shallow embedding of `jupyter2report` (`src/main.py`), a tool that extracts
cells tagged `caption` / `chart` from a Jupyter notebook (a JSON document)
and generates a static HTML report pairing captions with chart images.

Modelling conventions:
* JSON objects with optional keys become structures with `Option` fields;
  Python `dict.get(k, default)` becomes `Option.getD`.
* Python dicts used as string-keyed maps become association lists
  (`List (String × String)`), with `List.lookup` for key access
  (Python dict keys are unique, so first-match lookup coincides).
* The two external libraries the program calls — `json.load` and
  `markdown.Markdown(...).convert` — are not part of this repository;
  they enter the embedding as explicit function parameters
  (`parseJson : String → Option Notebook`, with `none` modelling a raised
  `json.JSONDecodeError`, and `markdownConvert : String → String`).
* A raised-and-uncaught Python exception is modelled by the `uncaught`
  field of `RunResult`; `sys.exit(1)` and normal return become the
  `exitCode` field (Python exits with code 1 on an uncaught exception).
* All embedded functions are total Lean functions: "never raises" claims
  about in-repository code are reflected by totality plus explicit
  default values, mirroring the `.get(..., default)` calls of the source.
-/

namespace Jupyter2Report

/-- One entry of a code cell's `outputs` list (`src/main.py:60-64`): a JSON
object whose optional `data` key maps MIME type strings to payload strings. -/
structure Output where
  data : Option (List (String × String))
  deriving DecidableEq, Repr

/-- A cell's `metadata` object; only its optional `tags` key is read
(`src/main.py:31`). -/
structure CellMetadata where
  tags : Option (List String)
  deriving DecidableEq, Repr

/-- A notebook cell (`src/main.py:30-36, 56-66, 151-157`): optional keys
`cell_type`, `metadata`, `source` (a list of text lines) and `outputs`. -/
structure Cell where
  cell_type : Option String
  metadata : Option CellMetadata
  source : Option (List String)
  outputs : Option (List Output)
  deriving DecidableEq, Repr

/-- The parsed notebook: a JSON object whose optional top-level `cells` key
holds the cell list (`src/main.py:30`). -/
structure Notebook where
  cells : Option (List Cell)
  deriving DecidableEq, Repr

/-- `cell.get('metadata', {}).get('tags', [])` (`src/main.py:31`). -/
def cellTags (cell : Cell) : List String :=
  match cell.metadata with
  | some m => m.tags.getD []
  | none => []

/-- The caption test of `src/main.py:33`:
`'caption' in tags and cell.get('cell_type') == 'markdown'`. -/
def qualifies_as_caption (cell : Cell) : Bool :=
  decide ("caption" ∈ cellTags cell ∧ cell.cell_type = some "markdown")

/-- The chart test of `src/main.py:35`:
`'chart' in tags and cell.get('cell_type') == 'code'`. -/
def qualifies_as_chart (cell : Cell) : Bool :=
  decide ("chart" ∈ cellTags cell ∧ cell.cell_type = some "code")

/-- The loop body of `extract_tagged_cells` (`src/main.py:30-36`): a single
left-to-right scan appending each cell to the caption list, else (elif) to
the chart list, else dropping it.  The structural recursion prepends the
head's classification to the classification of the tail, which yields the
same document-order lists as the Python loop's `append`. -/
def classifyCells : List Cell → List Cell × List Cell
  | [] => ([], [])
  | cell :: rest =>
    let (caption_cells, chart_cells) := classifyCells rest
    if qualifies_as_caption cell then (cell :: caption_cells, chart_cells)
    else if qualifies_as_chart cell then (caption_cells, cell :: chart_cells)
    else (caption_cells, chart_cells)

/-- `extract_tagged_cells` (`src/main.py:20-38`): returns
`(caption_cells, chart_cells)`; `notebook.get('cells', [])` defaults a
missing `cells` key to the empty list. -/
def extract_tagged_cells (notebook : Notebook) : List Cell × List Cell :=
  classifyCells (notebook.cells.getD [])

/-- The loop of `extract_image_from_cell` (`src/main.py:60-64`): scan the
outputs in stored order; on the first output whose `data` mapping contains
the key `image/png`, return that payload. -/
def findPngPayload : List Output → String
  | [] => ""
  | output :: rest =>
    let data := output.data.getD []
    match data.lookup "image/png" with
    | some payload => payload
    | none => findPngPayload rest

/-- `extract_image_from_cell` (`src/main.py:56-66`): `cell.get('outputs', [])`
defaults a missing `outputs` key to the empty list; returns `""` when no
output carries an `image/png` payload. -/
def extract_image_from_cell (cell : Cell) : String :=
  findPngPayload (cell.outputs.getD [])

/-- `markdown_to_html` (`src/main.py:41-53`) delegates to the external
`markdown` library (a fresh `markdown.Markdown` instance per call), which is
not part of this repository; the library's `convert` enters the embedding as
the explicit parameter `markdownConvert`. -/
def markdown_to_html (markdownConvert : String → String)
    (markdown_text : String) : String :=
  markdownConvert markdown_text

/-- The fixed HTML shell of `generate_html` up to (and including) the newline
before the `{content}` placeholder (`src/main.py:72-136`).  Python's
`str.format` turns each doubled brace of the source template into one literal
brace; literal braces and apostrophes are written with `\x` escapes. -/
def html_before_content : String :=
  String.intercalate "\n"
    ["<!DOCTYPE html>",
     "<html lang=\"en\">",
     "<head>",
     "    <meta charset=\"UTF-8\">",
     "    <meta name=\"viewport\" content=\"width=device-width, initial-scale=1.0\">",
     "    <title>Notebook Report</title>",
     "    <style>",
     "        body \x7b",
     "            font-family: -apple-system, BlinkMacSystemFont, \x27Segoe UI\x27, Roboto, \x27Helvetica Neue\x27, Arial, sans-serif;",
     "            max-width: 1200px;",
     "            margin: 0 auto;",
     "            padding: 20px;",
     "            background-color: #f5f5f5;",
     "        \x7d",
     "        .report-item \x7b",
     "            background: white;",
     "            margin-bottom: 30px;",
     "            padding: 20px;",
     "            border-radius: 8px;",
     "            box-shadow: 0 2px 4px rgba(0,0,0,0.1);",
     "            display: grid;",
     "            grid-template-columns: 1fr 2fr;",
     "            gap: 20px;",
     "            align-items: start;",
     "        \x7d",
     "        .caption \x7b",
     "            padding-right: 20px;",
     "        \x7d",
     "        .caption h1 \x7b",
     "            margin-top: 0;",
     "            font-size: 1.8em;",
     "            color: #333;",
     "        \x7d",
     "        .caption h2 \x7b",
     "            margin-top: 0;",
     "            font-size: 1.5em;",
     "            color: #444;",
     "        \x7d",
     "        .caption h3 \x7b",
     "            margin-top: 0;",
     "            font-size: 1.2em;",
     "            color: #555;",
     "        \x7d",
     "        .caption p \x7b",
     "            color: #666;",
     "            line-height: 1.6;",
     "        \x7d",
     "        .chart \x7b",
     "            text-align: center;",
     "        \x7d",
     "        .chart img \x7b",
     "            max-width: 100%;",
     "            height: auto;",
     "            border-radius: 4px;",
     "        \x7d",
     "        @media (max-width: 768px) \x7b",
     "            .report-item \x7b",
     "                grid-template-columns: 1fr;",
     "            \x7d",
     "        \x7d",
     "    </style>",
     "</head>",
     "<body>",
     "    <h1 style=\"text-align: center; color: #333;\">Notebook Report</h1>"]
    ++ "\n"

/-- The fixed HTML shell of `generate_html` after the `{content}` placeholder
(`src/main.py:136-139`). -/
def html_after_content : String :=
  "\n</body>\n</html>\n"

/-- The caption branch of the pairing loop (`src/main.py:150-153`): if
`i < len(caption_cells)`, markdown-render the concatenation of the cell's
`source` lines (`''.join(...)` with a missing `source` defaulting to `[]`);
otherwise the fragment stays `""`. -/
def caption_fragment (markdownConvert : String → String)
    (caption_cells : List Cell) (i : Nat) : String :=
  match caption_cells.get? i with
  | some cell => markdown_to_html markdownConvert (String.join (cell.source.getD []))
  | none => ""

/-- The `<img>` element of `src/main.py:159` embedding a base64 payload as a
`data:image/png;base64,...` URI (the alt text uses the 1-based index). -/
def chart_img_tag (i : Nat) (image_data : String) : String :=
  "<img src=\"data:image/png;base64," ++ image_data ++ "\" alt=\"Chart "
    ++ toString (i + 1) ++ "\" />"

/-- The chart branch of the pairing loop (`src/main.py:155-159`): if
`i < len(chart_cells)` and the extracted payload is truthy (a non-empty
string), emit the `<img>` element; otherwise the fragment stays `""`. -/
def chart_fragment (chart_cells : List Cell) (i : Nat) : String :=
  match chart_cells.get? i with
  | some cell =>
    let image_data := extract_image_from_cell cell
    if image_data ≠ "" then chart_img_tag i image_data else ""
  | none => ""

/-- One report item block (`src/main.py:162-170`): the f-string wrapping one
caption fragment and one chart fragment in a `report-item` div. -/
def report_item_html (caption_html chart_html : String) : String :=
  "    <div class=\"report-item\">\n        <div class=\"caption\">\n"
    ++ caption_html
    ++ "\n        </div>\n        <div class=\"chart\">\n"
    ++ chart_html
    ++ "\n        </div>\n    </div>\n"

/-- `generate_html` (`src/main.py:69-173`): loop `i` over
`range(max(len(caption_cells), len(chart_cells)))`, build one item block per
`i`, and splice `'\n'.join(content_items)` into the template at `{content}`. -/
def generate_html (markdownConvert : String → String)
    (caption_cells chart_cells : List Cell) : String :=
  let max_items := max caption_cells.length chart_cells.length
  let content_items := (List.range max_items).map (fun i =>
    report_item_html (caption_fragment markdownConvert caption_cells i)
      (chart_fragment chart_cells i))
  html_before_content ++ String.intercalate "\n" content_items ++ html_after_content

/-- The report as the spec describes it: the ordered sequence of
(caption fragment, chart fragment) pairs, one per index below
`max(len(caption_cells), len(chart_cells))`. -/
def report_items (markdownConvert : String → String)
    (caption_cells chart_cells : List Cell) : List (String × String) :=
  (List.range (max caption_cells.length chart_cells.length)).map
    (fun i => (caption_fragment markdownConvert caption_cells i,
               chart_fragment chart_cells i))

/-- Python's `str.endswith(suffix)` (`src/main.py:190`), modelled on the
character sequences of the two strings. -/
def string_endswith (s suffix : String) : Bool :=
  suffix.data.isSuffixOf s.data

/-- The Python exceptions `main` can leave uncaught: `open` on a missing path
(pre-checked, so unreachable from `main`), and `json.JSONDecodeError` from
`json.load` — the spec's `FormatError`. -/
inductive PyError where
  | fileNotFound (path : String)
  | jsonDecodeError
  deriving DecidableEq, Repr

/-- The process environment `main` reads: `sys.argv` (element 0 is the program
name), the file system as a path-to-content map, and the two external
libraries as functions (`parseJson` returns `none` where `json.load` raises
`json.JSONDecodeError`). -/
structure Env where
  argv : List String
  files : List (String × String)
  parseJson : String → Option Notebook
  markdownConvert : String → String

/-- `load_notebook` (`src/main.py:14-17`): `open` raises on a missing path and
`json.load` raises on content that is not valid JSON; otherwise the parsed
notebook is returned whole (all-or-nothing). -/
def load_notebook (env : Env) (notebook_path : String) : Except PyError Notebook :=
  match env.files.lookup notebook_path with
  | none => .error (.fileNotFound notebook_path)
  | some content =>
    match env.parseJson content with
    | none => .error .jsonDecodeError
    | some notebook => .ok notebook

/-- The observable outcome of one run of `main`: the process exit code, the
lines printed to standard output, the output file written (path, content) if
any, and the exception left uncaught if any (Python prints its traceback to
stderr and exits with code 1). -/
structure RunResult where
  exitCode : Nat
  stdout : List String
  written : Option (String × String)
  uncaught : Option PyError
  deriving DecidableEq, Repr

/-- `main` (`src/main.py:176-211`): usage check (`len(sys.argv) < 2`), file
existence check, `.ipynb` extension check (each printing to stdout and exiting
with code 1), then load → extract → generate → write, printing a progress line
per stage.  A `json.JSONDecodeError` raised inside `load_notebook` is not
caught, so the run terminates there: nothing past the first progress line is
printed and no output file is written. -/
def main (env : Env) : RunResult :=
  if env.argv.length < 2 then
    { exitCode := 1,
      stdout := ["Usage: python main.py <notebook_file.ipynb> [output.html]"],
      written := none,
      uncaught := none }
  else
    let notebook_path := (env.argv.get? 1).getD ""
    let output_path := (env.argv.get? 2).getD "report.html"
    if (env.files.lookup notebook_path).isNone then
      { exitCode := 1,
        stdout := ["Error: File not found: " ++ notebook_path],
        written := none,
        uncaught := none }
    else if ¬ string_endswith notebook_path ".ipynb" then
      { exitCode := 1,
        stdout := ["Error: Input file must be a Jupyter notebook (.ipynb)"],
        written := none,
        uncaught := none }
    else
      match load_notebook env notebook_path with
      | .error e =>
        { exitCode := 1,
          stdout := ["Loading notebook: " ++ notebook_path],
          written := none,
          uncaught := some e }
      | .ok notebook =>
        let (caption_cells, chart_cells) := extract_tagged_cells notebook
        let html_output := generate_html env.markdownConvert caption_cells chart_cells
        { exitCode := 0,
          stdout := ["Loading notebook: " ++ notebook_path,
            "Extracting tagged cells...",
            "Found " ++ toString caption_cells.length ++ " caption cell(s) and "
              ++ toString chart_cells.length ++ " chart cell(s)",
            "Generating HTML report...",
            "Report generated successfully: " ++ output_path],
          written := some (output_path, html_output),
          uncaught := none }

/-! ### Shared concrete values, used by witnesses -/

/-- A markdown cell tagged `caption`. -/
def sampleCaptionCell : Cell :=
  ⟨some "markdown", some ⟨some ["caption"]⟩, some ["# Title"], none⟩

/-- A code cell tagged `chart` with one `image/png` output. -/
def sampleChartCell : Cell :=
  ⟨some "code", some ⟨some ["chart"]⟩, none, some [⟨some [("image/png", "AAAA")]⟩]⟩

/-- A markdown cell with no `metadata` key at all. -/
def sampleNoMetadataCell : Cell :=
  ⟨some "markdown", none, some ["hi"], none⟩

/-- A notebook holding one caption cell, one chart cell and one untagged cell. -/
def sampleNotebook : Notebook :=
  ⟨some [sampleCaptionCell, sampleChartCell, sampleNoMetadataCell]⟩

/-- An invocation with no user argument at all. -/
def noArgsEnv : Env :=
  ⟨["main.py"], [], fun _ => none, fun s => s⟩

/-- An invocation naming a path that is not in the file system. -/
def missingFileEnv : Env :=
  ⟨["main.py", "nb.ipynb"], [], fun _ => none, fun s => s⟩

/-- An invocation naming an existing file without the `.ipynb` extension. -/
def txtEnv : Env :=
  ⟨["main.py", "notebook.txt"], [("notebook.txt", "x")], fun _ => none, fun s => s⟩

/-- An invocation naming an existing `.ipynb` file whose content does not
parse as JSON. -/
def badJsonEnv : Env :=
  ⟨["main.py", "nb.ipynb"], [("nb.ipynb", "not json")], fun _ => none, fun s => s⟩

/-- An invocation naming an existing `.ipynb` file that parses to an empty
notebook. -/
def okEnv : Env :=
  ⟨["main.py", "nb.ipynb"], [("nb.ipynb", "nbcontent")],
    fun _ => some ⟨some []⟩, fun s => s⟩

/-! ### Helper lemmas -/

/-- No cell passes both the caption test and the chart test: the former pins
`cell_type` to `markdown`, the latter to `code`. -/
lemma caption_chart_exclusive (cell : Cell) :
    ¬ (qualifies_as_caption cell = true ∧ qualifies_as_chart cell = true) := by
  simp only [qualifies_as_caption, qualifies_as_chart, decide_eq_true_eq]
  rintro ⟨⟨-, h1⟩, -, h2⟩
  rw [h1] at h2
  simp at h2

/-- The scan of `extract_tagged_cells` computes the two filters of the cell
list by the caption and chart predicates. -/
lemma classifyCells_eq_filter (l : List Cell) :
    classifyCells l = (l.filter qualifies_as_caption, l.filter qualifies_as_chart) := by
  induction l with
  | nil => rfl
  | cons cell rest ih =>
    by_cases h1 : qualifies_as_caption cell
    · have h2 : qualifies_as_chart cell = false := by
        rcases Bool.eq_false_or_eq_true (qualifies_as_chart cell) with h | h
        · exact absurd ⟨h1, h⟩ (caption_chart_exclusive cell)
        · exact h
      simp [classifyCells, ih, List.filter_cons, h1, h2]
    · by_cases h2 : qualifies_as_chart cell
      · simp [classifyCells, ih, List.filter_cons, h1, h2]
      · simp [classifyCells, ih, List.filter_cons, h1, h2]

/-- Length bookkeeping for the two disjoint filters: the sum of the selected
lengths is at most the scanned length, with equality iff every scanned cell
passes exactly one of the two tests. -/
lemma filter_caption_chart_length (l : List Cell) :
    (l.filter qualifies_as_caption).length + (l.filter qualifies_as_chart).length
        ≤ l.length
  ∧ ((l.filter qualifies_as_caption).length + (l.filter qualifies_as_chart).length
        = l.length
      ↔ ∀ cell ∈ l,
          (qualifies_as_caption cell = true ∧ qualifies_as_chart cell = false)
        ∨ (qualifies_as_caption cell = false ∧ qualifies_as_chart cell = true)) := by
  induction l with
  | nil => simp
  | cons cell rest ih =>
    obtain ⟨ihle, iheq⟩ := ih
    cases h1 : qualifies_as_caption cell with
    | false =>
      cases h2 : qualifies_as_chart cell with
      | false =>
        have e1 : (cell :: rest).filter qualifies_as_caption
            = rest.filter qualifies_as_caption := by
          simp [List.filter_cons, h1]
        have e2 : (cell :: rest).filter qualifies_as_chart
            = rest.filter qualifies_as_chart := by
          simp [List.filter_cons, h2]
        rw [e1, e2, List.length_cons]
        refine ⟨by omega, ?_, ?_⟩
        · intro hEq
          exact absurd hEq (by omega)
        · intro hAll
          have hcell := hAll cell (List.mem_cons_self cell rest)
          rw [h1, h2] at hcell
          simp at hcell
      | true =>
        have e1 : (cell :: rest).filter qualifies_as_caption
            = rest.filter qualifies_as_caption := by
          simp [List.filter_cons, h1]
        have e2 : (cell :: rest).filter qualifies_as_chart
            = cell :: rest.filter qualifies_as_chart := by
          simp [List.filter_cons, h2]
        rw [e1, e2, List.length_cons, List.length_cons]
        refine ⟨by omega, ?_⟩
        rw [List.forall_mem_cons]
        constructor
        · intro hEq
          exact ⟨Or.inr ⟨h1, h2⟩, iheq.mp (by omega)⟩
        · rintro ⟨-, hrest⟩
          have := iheq.mpr hrest
          omega
    | true =>
      cases h2 : qualifies_as_chart cell with
      | false =>
        have e1 : (cell :: rest).filter qualifies_as_caption
            = cell :: rest.filter qualifies_as_caption := by
          simp [List.filter_cons, h1]
        have e2 : (cell :: rest).filter qualifies_as_chart
            = rest.filter qualifies_as_chart := by
          simp [List.filter_cons, h2]
        rw [e1, e2, List.length_cons, List.length_cons]
        refine ⟨by omega, ?_⟩
        rw [List.forall_mem_cons]
        constructor
        · intro hEq
          exact ⟨Or.inl ⟨h1, h2⟩, iheq.mp (by omega)⟩
        · rintro ⟨-, hrest⟩
          have := iheq.mpr hrest
          omega
      | true => exact absurd ⟨h1, h2⟩ (caption_chart_exclusive cell)

/-! ### Claims -/

/-- C2: a cell of the document appears in the caption list iff its type is
`markdown` and its tags contain `caption`, appears in the chart list iff its
type is `code` and its tags contain `chart`, and no cell appears in both. -/
theorem extract_tagged_cells_classification (notebook : Notebook) :
    (∀ cell ∈ notebook.cells.getD [],
        (cell ∈ (extract_tagged_cells notebook).fst ↔
          cell.cell_type = some "markdown" ∧ "caption" ∈ cellTags cell)
      ∧ (cell ∈ (extract_tagged_cells notebook).snd ↔
          cell.cell_type = some "code" ∧ "chart" ∈ cellTags cell))
  ∧ ∀ cell, ¬ (cell ∈ (extract_tagged_cells notebook).fst
      ∧ cell ∈ (extract_tagged_cells notebook).snd) := by
  have hc := classifyCells_eq_filter (notebook.cells.getD [])
  constructor
  · intro cell hmem
    constructor
    · simp [extract_tagged_cells, hc, List.mem_filter, hmem, qualifies_as_caption,
        and_comm]
    · simp [extract_tagged_cells, hc, List.mem_filter, hmem, qualifies_as_chart,
        and_comm]
  · intro cell hboth
    rw [extract_tagged_cells, hc] at hboth
    obtain ⟨hmem1, hmem2⟩ := hboth
    exact caption_chart_exclusive cell
      ⟨(List.mem_filter.mp hmem1).2, (List.mem_filter.mp hmem2).2⟩

/-- C2 witness: on the sample notebook, the tagged caption cell lands in the
caption list and the tagged chart cell in the chart list. -/
theorem extract_tagged_cells_classification_witness :
    sampleCaptionCell ∈ (extract_tagged_cells sampleNotebook).fst
  ∧ sampleChartCell ∈ (extract_tagged_cells sampleNotebook).snd := by
  have h := extract_tagged_cells_classification sampleNotebook
  constructor
  · exact (h.1 sampleCaptionCell (by simp [sampleNotebook])).1.mpr
      (by constructor <;> simp [sampleCaptionCell, cellTags])
  · exact (h.1 sampleChartCell (by simp [sampleNotebook])).2.mpr
      (by constructor <;> simp [sampleChartCell, cellTags])

/-- C3: each selected sequence is the order-preserving filter of the cell list
by its predicate (hence a sublist: no reordering, no deduplication, and a
non-qualifying cell is silently dropped). -/
theorem extract_tagged_cells_order (notebook : Notebook) :
    (extract_tagged_cells notebook).fst
        = (notebook.cells.getD []).filter qualifies_as_caption
  ∧ (extract_tagged_cells notebook).snd
        = (notebook.cells.getD []).filter qualifies_as_chart
  ∧ List.Sublist (extract_tagged_cells notebook).fst (notebook.cells.getD [])
  ∧ List.Sublist (extract_tagged_cells notebook).snd (notebook.cells.getD []) := by
  have hc := classifyCells_eq_filter (notebook.cells.getD [])
  refine ⟨?_, ?_, ?_, ?_⟩ <;>
    simp [extract_tagged_cells, hc, List.filter_sublist]

/-- C3 witness: on the sample notebook the selection is the filter of the cell
list, concretely `[sampleCaptionCell]` and `[sampleChartCell]`. -/
theorem extract_tagged_cells_order_witness :
    (extract_tagged_cells sampleNotebook).fst = [sampleCaptionCell]
  ∧ (extract_tagged_cells sampleNotebook).snd = [sampleChartCell] := by
  have h := extract_tagged_cells_order sampleNotebook
  refine ⟨h.1.trans ?_, h.2.1.trans ?_⟩ <;> rfl

/-- C6: the two selected lengths sum to at most the document's cell count,
with equality iff every cell qualifies for exactly one of the two
categories. -/
theorem extract_tagged_cells_count (notebook : Notebook) :
    (extract_tagged_cells notebook).fst.length
        + (extract_tagged_cells notebook).snd.length
        ≤ (notebook.cells.getD []).length
  ∧ ((extract_tagged_cells notebook).fst.length
        + (extract_tagged_cells notebook).snd.length
        = (notebook.cells.getD []).length
      ↔ ∀ cell ∈ notebook.cells.getD [],
          (qualifies_as_caption cell = true ∧ qualifies_as_chart cell = false)
        ∨ (qualifies_as_caption cell = false ∧ qualifies_as_chart cell = true)) := by
  have h := filter_caption_chart_length (notebook.cells.getD [])
  simp only [extract_tagged_cells, classifyCells_eq_filter]
  exact h

/-- C6 witness: on the sample notebook (two qualifying cells out of three) the
sum is 2 ≤ 3 and the equality side of the iff is refuted. -/
theorem extract_tagged_cells_count_witness :
    (extract_tagged_cells sampleNotebook).fst.length
        + (extract_tagged_cells sampleNotebook).snd.length
        ≤ (sampleNotebook.cells.getD []).length := by
  exact (extract_tagged_cells_count sampleNotebook).1

/-- C10: a notebook without the top-level `cells` key yields two empty
sequences (the `.get('cells', [])` default), without error. -/
theorem extract_tagged_cells_no_cells_key (notebook : Notebook)
    (h : notebook.cells = none) : extract_tagged_cells notebook = ([], []) := by
  simp [extract_tagged_cells, h, classifyCells]

/-- C10 witness: the concrete cell-less notebook. -/
theorem extract_tagged_cells_no_cells_key_witness :
    extract_tagged_cells ⟨none⟩ = ([], []) :=
  extract_tagged_cells_no_cells_key ⟨none⟩ rfl

/-- The scan of `extract_image_from_cell` returns the `image/png` payload of
the first output (in stored order) whose data mapping has that key, else `""`. -/
lemma findPngPayload_eq_find (outputs : List Output) :
    findPngPayload outputs
      = match outputs.find?
            (fun output => ((output.data.getD []).lookup "image/png").isSome) with
        | some output => ((output.data.getD []).lookup "image/png").getD ""
        | none => "" := by
  induction outputs with
  | nil => rfl
  | cons output rest ih =>
    cases hl : (output.data.getD []).lookup "image/png" with
    | some payload =>
      rw [List.find?_cons_of_pos _ (by simp [hl])]
      simp [findPngPayload, hl]
    | none =>
      rw [List.find?_cons_of_neg _ (by simp [hl])]
      simp [findPngPayload, hl, ih]

/-- C4: for every cell, the image extractor returns the `image/png` payload of
the first output record whose data mapping contains that key, and `""` when no
output contains it; later matching outputs are ignored. -/
theorem extract_image_from_cell_first_match (cell : Cell) :
    extract_image_from_cell cell
      = match (cell.outputs.getD []).find?
            (fun output => ((output.data.getD []).lookup "image/png").isSome) with
        | some output => ((output.data.getD []).lookup "image/png").getD ""
        | none => "" := by
  rw [extract_image_from_cell]
  exact findPngPayload_eq_find _

/-- C4 witness: on the sample chart cell the extractor returns the payload of
its (first) `image/png` output. -/
theorem extract_image_from_cell_first_match_witness :
    extract_image_from_cell sampleChartCell = "AAAA" := by
  rw [extract_image_from_cell_first_match sampleChartCell]
  rfl

/-- C5: an absent `metadata` field degrades to the empty tag set (so such a
cell is selected into neither sequence), an absent `outputs` field degrades to
the empty output list (so the extractor returns `""`), an absent `source`
field degrades to the empty line list (so the caption fragment renders `""`),
and in particular the cell `{"cell_type": "markdown", "source": ["hi"]}` is
excluded from the caption list; all the embedded functions are total, so no
case raises. -/
theorem missing_fields_default (notebook : Notebook) :
    (∀ cell : Cell, cell.metadata = none →
        cellTags cell = []
      ∧ cell ∉ (extract_tagged_cells notebook).fst
      ∧ cell ∉ (extract_tagged_cells notebook).snd)
  ∧ (∀ cell : Cell, cell.outputs = none → extract_image_from_cell cell = "")
  ∧ (∀ (markdownConvert : String → String) (caption_cells : List Cell)
        (i : Nat) (cell : Cell),
        caption_cells.get? i = some cell → cell.source = none →
        caption_fragment markdownConvert caption_cells i = markdownConvert "")
  ∧ sampleNoMetadataCell ∉ (extract_tagged_cells notebook).fst := by
  have hc := classifyCells_eq_filter (notebook.cells.getD [])
  have hmeta : ∀ cell : Cell, cell.metadata = none →
      cellTags cell = []
    ∧ cell ∉ (extract_tagged_cells notebook).fst
    ∧ cell ∉ (extract_tagged_cells notebook).snd := by
    intro cell h
    have htags : cellTags cell = [] := by simp [cellTags, h]
    refine ⟨htags, ?_, ?_⟩
    · intro hmem
      rw [extract_tagged_cells, hc] at hmem
      have := (List.mem_filter.mp hmem).2
      simp [qualifies_as_caption, htags] at this
    · intro hmem
      rw [extract_tagged_cells, hc] at hmem
      have := (List.mem_filter.mp hmem).2
      simp [qualifies_as_chart, htags] at this
  refine ⟨hmeta, ?_, ?_, (hmeta sampleNoMetadataCell rfl).2.1⟩
  · intro cell h
    simp [extract_image_from_cell, h, findPngPayload]
  · intro markdownConvert caption_cells i cell hget hsrc
    have hget' : caption_cells[i]? = some cell := by
      simpa [List.get?_eq_getElem?] using hget
    simp only [caption_fragment, List.get?_eq_getElem?, hget', hsrc,
      Option.getD_none, markdown_to_html]
    rfl

/-- C5 witness: the concrete metadata-less cell has empty tags and is excluded
from the captions of the sample notebook; a cell without `outputs` extracts
`""`; a cell without `source` renders the markdown conversion of `""`. -/
theorem missing_fields_default_witness :
    cellTags sampleNoMetadataCell = []
  ∧ sampleNoMetadataCell ∉ (extract_tagged_cells sampleNotebook).fst
  ∧ extract_image_from_cell sampleNoMetadataCell = ""
  ∧ caption_fragment (fun s => s ++ "!") [Cell.mk none none none none] 0 = "!" := by
  have h := missing_fields_default sampleNotebook
  exact ⟨(h.1 sampleNoMetadataCell rfl).1, h.2.2.2,
    h.2.1 sampleNoMetadataCell rfl,
    h.2.2.1 (fun s => s ++ "!") [Cell.mk none none none none] 0
      (Cell.mk none none none none) rfl rfl⟩

/-- C1: `generate_html` is the fixed shell around the newline-join of exactly
`max(len(caption_cells), len(chart_cells))` report item blocks; the item at
index `i` pairs the markdown rendering of the `i`-th caption cell's joined
source (empty past the caption list) with an `<img>` data URI of the `i`-th
chart cell's extracted payload when that payload is non-empty (empty past the
chart list or on an empty payload); two empty inputs give zero items, and
3 captions with 1 chart give 3 items whose items 1 and 2 have empty chart
fragments. -/
theorem generate_html_report_items (markdownConvert : String → String)
    (caption_cells chart_cells : List Cell) :
    generate_html markdownConvert caption_cells chart_cells
        = html_before_content
          ++ String.intercalate "\n"
              ((report_items markdownConvert caption_cells chart_cells).map
                (fun p => report_item_html p.fst p.snd))
          ++ html_after_content
  ∧ (report_items markdownConvert caption_cells chart_cells).length
        = max caption_cells.length chart_cells.length
  ∧ (∀ i, i < max caption_cells.length chart_cells.length →
      (report_items markdownConvert caption_cells chart_cells).get? i
        = some ((match caption_cells.get? i with
                 | some cell => markdownConvert (String.join (cell.source.getD []))
                 | none => ""),
                (match chart_cells.get? i with
                 | some cell =>
                   if extract_image_from_cell cell ≠ "" then
                     chart_img_tag i (extract_image_from_cell cell)
                   else ""
                 | none => "")))
  ∧ report_items markdownConvert ([] : List Cell) ([] : List Cell) = []
  ∧ (∀ c1 c2 c3 ch : Cell,
      (report_items markdownConvert [c1, c2, c3] [ch]).length = 3
      ∧ ((report_items markdownConvert [c1, c2, c3] [ch]).get? 1).map Prod.snd
          = some ""
      ∧ ((report_items markdownConvert [c1, c2, c3] [ch]).get? 2).map Prod.snd
          = some "") := by
  refine ⟨?_, ?_, ?_, ?_, ?_⟩
  · simp [generate_html, report_items, List.map_map, Function.comp_def]
  · simp [report_items]
  · intro i hi
    rw [report_items, List.get?_map, List.get?_range hi]
    simp [caption_fragment, chart_fragment, markdown_to_html]
  · rfl
  · intro c1 c2 c3 ch
    refine ⟨rfl, rfl, rfl⟩

/-- C1 witness: with the identity renderer, one caption cell and no chart
cells give one item whose caption fragment is the joined source and whose
chart fragment is empty; 3 captions with 1 chart give 3 items. -/
theorem generate_html_report_items_witness :
    0 < max [sampleCaptionCell].length ([] : List Cell).length
  ∧ (report_items (fun s => s) [sampleCaptionCell] []).get? 0
      = some ("# Title", "")
  ∧ (report_items (fun s => s)
      [sampleCaptionCell, sampleCaptionCell, sampleCaptionCell]
      [sampleChartCell]).length = 3 := by
  have h := generate_html_report_items (fun s => s) [sampleCaptionCell] []
  refine ⟨by decide, ?_, ?_⟩
  · rw [h.2.2.1 0 (by decide)]
    rfl
  · exact ((generate_html_report_items (fun s => s) [] []).2.2.2.2
      sampleCaptionCell sampleCaptionCell sampleCaptionCell sampleChartCell).1

/-- C9: `generate_html` is a pure function of its two input sequences — equal
inputs give identical HTML strings, and no state survives between calls (the
embedding of the call is a closed term of its arguments). -/
theorem generate_html_deterministic (markdownConvert : String → String)
    (caption_cells chart_cells caption_cells' chart_cells' : List Cell)
    (h1 : caption_cells = caption_cells') (h2 : chart_cells = chart_cells') :
    generate_html markdownConvert caption_cells chart_cells
      = generate_html markdownConvert caption_cells' chart_cells' := by
  rw [h1, h2]

/-- C9 witness: two calls on the sample selection produce the same string. -/
theorem generate_html_deterministic_witness :
    generate_html (fun s => s) [sampleCaptionCell] [sampleChartCell]
      = generate_html (fun s => s) [sampleCaptionCell] [sampleChartCell] :=
  generate_html_deterministic (fun s => s) [sampleCaptionCell] [sampleChartCell]
    [sampleCaptionCell] [sampleChartCell] rfl rfl

/-- C7: when the named `.ipynb` file exists but its content is not valid JSON,
`load_notebook` fails with the format error (`json.JSONDecodeError`), `main`
leaves it uncaught and terminates right there with exit code 1 (Python's exit
code for an uncaught exception, whose traceback is the user-facing message):
only the pre-load progress line is printed and no output file is written. -/
theorem load_notebook_format_error (env : Env) (notebook_path content : String)
    (hargs : 2 ≤ env.argv.length)
    (hpath : (env.argv.get? 1).getD "" = notebook_path)
    (hfile : env.files.lookup notebook_path = some content)
    (hext : string_endswith notebook_path ".ipynb" = true)
    (hparse : env.parseJson content = none) :
    load_notebook env notebook_path = .error .jsonDecodeError
  ∧ (main env).exitCode = 1
  ∧ (main env).uncaught = some .jsonDecodeError
  ∧ (main env).written = none
  ∧ (main env).stdout = ["Loading notebook: " ++ notebook_path] := by
  have hload : load_notebook env notebook_path = .error .jsonDecodeError := by
    simp [load_notebook, hfile, hparse]
  have hlt : ¬ (env.argv.length < 2) := by omega
  have hpath' : (env.argv[1]?).getD "" = notebook_path := by
    rw [← List.get?_eq_getElem?]
    exact hpath
  refine ⟨hload, ?_, ?_, ?_, ?_⟩ <;>
    simp [main, hlt, hpath, hpath', hfile, hext, hload]

/-- C7 witness: the concrete run on `nb.ipynb` holding unparseable content. -/
theorem load_notebook_format_error_witness :
    load_notebook badJsonEnv "nb.ipynb" = .error .jsonDecodeError
  ∧ (main badJsonEnv).exitCode = 1
  ∧ (main badJsonEnv).written = none := by
  have h := load_notebook_format_error badJsonEnv "nb.ipynb" "not json"
    (by decide) rfl rfl (by decide) rfl
  exact ⟨h.1, h.2.1, h.2.2.2.1⟩

/-- C8: `main` exits with code 1 after printing its message to standard output
and without writing the output file when fewer than one user argument is
given, when the input path does not exist, or when the (existing) input path
lacks the `.ipynb` extension; when all checks and the load succeed it exits
with code 0 and writes the generated HTML to the output path. -/
theorem main_exit_codes (env : Env) :
    (env.argv.length < 2 →
      (main env).exitCode = 1 ∧ (main env).written = none
        ∧ (main env).stdout
            = ["Usage: python main.py <notebook_file.ipynb> [output.html]"])
  ∧ (∀ notebook_path, 2 ≤ env.argv.length →
      (env.argv.get? 1).getD "" = notebook_path →
      env.files.lookup notebook_path = none →
      (main env).exitCode = 1 ∧ (main env).written = none
        ∧ (main env).stdout = ["Error: File not found: " ++ notebook_path])
  ∧ (∀ notebook_path content, 2 ≤ env.argv.length →
      (env.argv.get? 1).getD "" = notebook_path →
      env.files.lookup notebook_path = some content →
      string_endswith notebook_path ".ipynb" = false →
      (main env).exitCode = 1 ∧ (main env).written = none
        ∧ (main env).stdout
            = ["Error: Input file must be a Jupyter notebook (.ipynb)"])
  ∧ (∀ notebook_path content notebook, 2 ≤ env.argv.length →
      (env.argv.get? 1).getD "" = notebook_path →
      env.files.lookup notebook_path = some content →
      string_endswith notebook_path ".ipynb" = true →
      env.parseJson content = some notebook →
      (main env).exitCode = 0
        ∧ (main env).written
            = some ((env.argv.get? 2).getD "report.html",
                generate_html env.markdownConvert
                  (extract_tagged_cells notebook).fst
                  (extract_tagged_cells notebook).snd)) := by
  refine ⟨?_, ?_, ?_, ?_⟩
  · intro hlt
    refine ⟨?_, ?_, ?_⟩ <;> simp [main, hlt]
  · intro notebook_path hargs hpath hfile
    have hlt : ¬ (env.argv.length < 2) := by omega
    have hpath' : (env.argv[1]?).getD "" = notebook_path := by
      rw [← List.get?_eq_getElem?]
      exact hpath
    refine ⟨?_, ?_, ?_⟩ <;> simp [main, hlt, hpath, hpath', hfile]
  · intro notebook_path content hargs hpath hfile hext
    have hlt : ¬ (env.argv.length < 2) := by omega
    have hpath' : (env.argv[1]?).getD "" = notebook_path := by
      rw [← List.get?_eq_getElem?]
      exact hpath
    refine ⟨?_, ?_, ?_⟩ <;> simp [main, hlt, hpath, hpath', hfile, hext]
  · intro notebook_path content notebook hargs hpath hfile hext hparse
    have hlt : ¬ (env.argv.length < 2) := by omega
    have hpath' : (env.argv[1]?).getD "" = notebook_path := by
      rw [← List.get?_eq_getElem?]
      exact hpath
    have hload : load_notebook env notebook_path = .ok notebook := by
      simp [load_notebook, hfile, hparse]
    refine ⟨?_, ?_⟩ <;> simp [main, hlt, hpath, hpath', hfile, hext, hload]

/-- C8 witness: the four concrete invocations — no argument, missing file,
`.txt` extension, and a fully successful run. -/
theorem main_exit_codes_witness :
    (main noArgsEnv).exitCode = 1
  ∧ (main missingFileEnv).exitCode = 1 ∧ (main missingFileEnv).written = none
  ∧ (main txtEnv).exitCode = 1 ∧ (main txtEnv).written = none
  ∧ (main okEnv).exitCode = 0 := by
  have h1 := (main_exit_codes noArgsEnv).1 (by decide)
  have h2 := (main_exit_codes missingFileEnv).2.1 "nb.ipynb" (by decide) rfl rfl
  have h3 := (main_exit_codes txtEnv).2.2.1 "notebook.txt" "x"
    (by decide) rfl rfl (by decide)
  have h4 := (main_exit_codes okEnv).2.2.2 "nb.ipynb" "nbcontent" ⟨some []⟩
    (by decide) rfl rfl (by decide) rfl
  exact ⟨h1.1, h2.1, h2.2.1, h3.1, h3.2.1, h4.1⟩

end Jupyter2Report
